import Mathlib

/-!
# ChatBot BDM Desktop — verification of the streaming/session pipeline

Shallow embedding of the parts of the repository that the specification's
claims are about:

* `core/database.py`      — `DatabaseManager` (conversations/messages store)
* `core/main_controller.py` — `MainController` (session state, message lifecycle)
* `core/conversation_manager.py` — `ConversationManager`
* `core/api_client.py`    — `APIClient.chat_completion_stream`
* `workers/api_worker.py` — `APIWorker.run` / `stop`
* `ui/main_window.py`     — submit / completion / cancellation handlers
* `ui/chat_widget.py`     — `ChatWidget.append_message`, typing indicator
* `core/constants.py`     — constants

Python dictionaries `{'role': r, 'content': c}` become the structure `Msg`;
SQLite rows become `MsgRow`/`ConvRow`; the SQLite store becomes `DB`.
Wall-clock timestamps (`datetime.now().isoformat()`) become `Nat` values
supplied explicitly by the caller (`now`); a fallible `INSERT` is modelled
by an explicit `insertFails` oracle argument (a Python raise ↦ `true`).
-/

/-- A chat message dict `{'role': ..., 'content': ...}` as used for
Session State (`current_messages`) and the API history. -/
structure Msg where
  role : String
  content : String
deriving DecidableEq, Repr

/-- A row of the SQLite `messages` table
(`id, conversation_id, role, content, timestamp, tokens_estimated`). -/
structure MsgRow where
  id : Nat
  conversation_id : Nat
  role : String
  content : String
  timestamp : Nat
  tokens_estimated : Nat
deriving DecidableEq, Repr

/-- A row of the SQLite `conversations` table (`id, title, created_at`). -/
structure ConvRow where
  id : Nat
  title : String
  created_at : Nat
deriving DecidableEq, Repr

/-- The SQLite store held by `DatabaseManager`: table contents plus the
`AUTOINCREMENT` counters (SQLite hands out ids 1, 2, ...). -/
structure DB where
  convs : List ConvRow
  msgs : List MsgRow
  nextConvId : Nat
  nextMsgId : Nat
deriving DecidableEq, Repr

/-- `DatabaseManager.create_conversation`: INSERT a conversation row with the
current wall-clock time, return `cursor.lastrowid`. -/
def DB.create_conversation (db : DB) (title : String) (now : Nat) : DB × Nat :=
  ({ db with
      convs := db.convs ++ [⟨db.nextConvId, title, now⟩],
      nextConvId := db.nextConvId + 1 },
   db.nextConvId)

/-- `DatabaseManager.add_message`: INSERT a message row with the current
wall-clock time, return `cursor.lastrowid`. -/
def DB.add_message (db : DB) (conversation_id : Nat) (role content : String)
    (tokens_estimated : Nat) (now : Nat) : DB × Nat :=
  ({ db with
      msgs := db.msgs ++ [⟨db.nextMsgId, conversation_id, role, content, now, tokens_estimated⟩],
      nextMsgId := db.nextMsgId + 1 },
   db.nextMsgId)

/-- `DatabaseManager.update_conversation_title`: UPDATE the title of the row
with the given id. -/
def DB.update_conversation_title (db : DB) (cid : Nat) (new_title : String) : DB :=
  { db with convs := db.convs.map fun c => if c.id = cid then { c with title := new_title } else c }

/-- Insertion into a timestamp-sorted list, placing the new row *after* all
rows of equal timestamp — the position SQLite's scan of
`ORDER BY timestamp ASC` gives a row with a larger rowid. -/
def insertByTs (r : MsgRow) : List MsgRow → List MsgRow
  | [] => [r]
  | x :: xs => if x.timestamp ≤ r.timestamp then x :: insertByTs r xs else r :: x :: xs

/-- Stable sort by `timestamp` (rows of equal timestamp keep their rowid
order), modelling SQLite's `ORDER BY timestamp ASC` over rows stored in
rowid order. -/
def sortByTs (l : List MsgRow) : List MsgRow :=
  l.foldl (fun acc r => insertByTs r acc) []

/-- `DatabaseManager.get_messages`:
`SELECT ... WHERE conversation_id = ? ORDER BY timestamp ASC`. -/
def DB.get_messages (db : DB) (conversation_id : Nat) : List MsgRow :=
  sortByTs (db.msgs.filter fun r => r.conversation_id == conversation_id)

/-- `DatabaseManager.get_conversation`: SELECT the conversation row by id. -/
def DB.get_conversation (db : DB) (cid : Nat) : Option ConvRow :=
  db.convs.find? fun c => c.id == cid

/-- `DatabaseManager.get_conversation_with_messages`: the conversation row
plus its messages projected to API shape (`role`/`content` only). -/
def DB.get_conversation_with_messages (db : DB) (cid : Nat) :
    Option (ConvRow × List Msg) :=
  match db.get_conversation cid with
  | none => none
  | some conv => some (conv, (db.get_messages cid).map fun r => ⟨r.role, r.content⟩)

/-- `core/constants.py`: `AUTO_TITLE_MAX_LENGTH = 50`. -/
def AUTO_TITLE_MAX_LENGTH : Nat := 50

/-- `core/constants.py`: `WORKER_WAIT_TIMEOUT_MS = 10000`
(its own comment: « 10 secondes pour attendre la fin du worker »). -/
def WORKER_WAIT_TIMEOUT_MS : Nat := 10000

/-- ASCII whitespace as removed by Python's `str.strip()` (`' '`, `'\t'`,
`'\n'`, `'\r'`, `'\x0b'`, `'\x0c'`; non-ASCII Unicode spaces do not occur
in the inputs under study). -/
def pyIsSpace (c : Char) : Bool :=
  c = ' ' || c = '\t' || c = '\n' || c = '\r' || c = '\x0b' || c = '\x0c'

/-- Python `str.strip()` on the code-point sequence. -/
def pyStrip (s : String) : String :=
  ⟨((s.toList.dropWhile pyIsSpace).reverse.dropWhile pyIsSpace).reverse⟩

/-- Python `len(s)` (number of code points). -/
def pyLen (s : String) : Nat := s.toList.length

/-- Python `s[:n]` (first `n` code points). -/
def pySlice (s : String) (n : Nat) : String := ⟨s.toList.take n⟩

/-- `MainController._generate_title_from_message` (identical to
`ConversationManager.generate_title_from_message`):
strip, truncate to `max_length` characters with an `"..."` suffix when too
long, fall back to `"New session"` when empty.  The Python default for
`max_length` is `AUTO_TITLE_MAX_LENGTH`. -/
def generate_title_from_message (message : String) (max_length : Nat) : String :=
  let title := pyStrip message
  let title := if pyLen title > max_length then pySlice title max_length ++ "..." else title
  if title ≠ "" then title else "New session"

/-- `MainController._estimate_tokens`: `max(1, len(text) // 4) if text else 0`. -/
def estimate_tokens (text : String) : Nat :=
  if text = "" then 0 else max 1 (text.length / 4)

/-- `needle` occurs at the start of `hay` (character lists). -/
def isPrefOf : List Char → List Char → Bool
  | [], _ => true
  | _ :: _, [] => false
  | a :: as, b :: bs => if a = b then isPrefOf as bs else false

/-- `needle` occurs somewhere inside `hay` (character lists). -/
def isInfOf : List Char → List Char → Bool
  | needle, [] => needle.isEmpty
  | needle, b :: bs => isPrefOf needle (b :: bs) || isInfOf needle bs

/-- Python's `needle in hay` on strings. -/
def strContains (hay needle : String) : Bool :=
  isInfOf needle.toList hay.toList

/-- Python's `ch in hay` for a single character. -/
def strContainsChar (hay : String) (ch : Char) : Bool :=
  hay.toList.contains ch

/-- The literal `typing_html` pushed by `ChatWidget.show_typing_indicator`. -/
def TYPING_HTML : String :=
  "\n        <div class=\"typing-indicator\">\n            <div class=\"typing-dot\"></div>\n            <div class=\"typing-dot\"></div>\n            <div class=\"typing-dot\"></div>\n        </div>\n        "

/-- The rendering-relevant state of `ChatWidget`: the displayed message list
and the scroll flag (`should_scroll_to_question`). -/
structure ChatState where
  current_messages : List Msg
  should_scroll_to_question : Bool
deriving DecidableEq, Repr

/-- `ChatWidget.append_message`, line for line:
1. an `assistant` push while the last entry is an `assistant` message
   containing `'⏳'` replaces that loading entry in place and sets the
   scroll flag;
2. otherwise a push identical (role and content) to the last entry is
   ignored — unless the content contains `'typing-indicator'`, which is
   explicitly allowed to repeat;
3. otherwise the message is appended; a `user` push clears the scroll flag. -/
def ChatWidget.append_message (s : ChatState) (role content : String) : ChatState :=
  match s.current_messages.getLast? with
  | some lastMsg =>
      if role = "assistant" ∧ lastMsg.role = "assistant" ∧
          strContainsChar lastMsg.content '⏳' = true then
        { current_messages := s.current_messages.dropLast ++ [⟨role, content⟩],
          should_scroll_to_question := true }
      else if lastMsg.role = role ∧ lastMsg.content = content ∧
          strContains content "typing-indicator" = false then
        s
      else
        { current_messages := s.current_messages ++ [⟨role, content⟩],
          should_scroll_to_question :=
            if role = "user" then false else s.should_scroll_to_question }
  | none =>
      { current_messages := [⟨role, content⟩],
        should_scroll_to_question :=
          if role = "user" then false else s.should_scroll_to_question }

/-- `ChatWidget.show_typing_indicator`: `append_message('assistant', typing_html)`. -/
def ChatWidget.show_typing_indicator (s : ChatState) : ChatState :=
  ChatWidget.append_message s "assistant" TYPING_HTML

/-- Helper for `hide_typing_indicator`: the widget scans from the end of
the list (here: the front of the reversed list), looks at most `k` entries
deep, and removes the first `assistant` entry containing
`'typing-indicator'`. -/
def removeFirstIndicator : Nat → List Msg → List Msg
  | _, [] => []
  | 0, l => l
  | k + 1, m :: rest =>
      if m.role == "assistant" && strContains m.content "typing-indicator" then rest
      else m :: removeFirstIndicator k rest

/-- `ChatWidget.hide_typing_indicator`: pop the first typing indicator found
among the last three entries (searching backwards); no-op when none is
found. -/
def ChatWidget.hide_typing_indicator (s : ChatState) : ChatState :=
  { s with current_messages := (removeFirstIndicator 3 s.current_messages.reverse).reverse }

/-- The sentinel fragment `chat_completion_stream` yields when the OpenAI
iteration raises mid-stream: `f"\n\n[ERREUR] {str(e)}"`. -/
def ERROR_SENTINEL (e : String) : String := "\n\n[ERREUR] " ++ e

/-- `APIClient.chat_completion_stream`: yields the transport's fragments in
arrival order; when the underlying iteration raises after those fragments,
the `except` branch yields one final error-sentinel fragment *instead of
raising past the iteration boundary*.  `midStreamError = some e` models the
exception, `fragments` the fragments delivered before it. -/
def chat_completion_stream (fragments : List String) (midStreamError : Option String) :
    List String :=
  match midStreamError with
  | none => fragments
  | some e => fragments ++ [ERROR_SENTINEL e]

/-- What `APIWorker.run` ends up emitting: `response_complete(full)` or
nothing (the loop was stopped by `stop()`, so the final
`if self._is_running` guard suppresses the emit).  `error_occurred` is
emitted only when the chunk iteration raises, which
`chat_completion_stream` never does (it converts exceptions into the
sentinel fragment), so that outcome does not arise from this transport. -/
inductive WorkerResult where
  | completed (full : String)
  | cancelled
deriving DecidableEq, Repr

/-- `APIWorker.run`: iterate the chunk sequence, checking the shared stop
flag before accumulating each chunk and once more after the loop before
emitting `response_complete`.  `stopAt = some t` means `stop()` has made the
flag observable from the `t`-th check onwards (check `i < len` happens
before chunk `i`; check `len` is the final guard); `none` means the flag is
never set.  The accumulated text is the concatenation of the chunks in
order (`self._full_response += chunk`). -/
def APIWorker.run (chunks : List String) (stopAt : Option Nat) : WorkerResult :=
  match stopAt with
  | none => .completed (chunks.foldl (· ++ ·) "")
  | some t =>
      if chunks.length < t then .completed (chunks.foldl (· ++ ·) "")
      else .cancelled

/-- Observable persistence/memory events of one controller call, used to
state in which order the durable store and the in-memory transcript are
touched. -/
inductive Ev where
  | storeCreateConv (title : String)
  | storeUpdateTitle (conv : Nat) (title : String)
  | storeInsert (conv : Nat) (role content : String)
  | storeInsertFailed (conv : Nat) (role content : String)
  | memAppend (role content : String)
  | errorEmitted (msg : String)
deriving DecidableEq, Repr

/-- The `MainController` fields the pipeline claims are about: the store,
`current_conversation_id`, `current_messages` and whether `api_client` is
set.  (`None`/falsy conversation ids become `none`; SQLite ids start at 1,
so `0` never occurs.) -/
structure CtrlState where
  db : DB
  current_conversation_id : Option Nat
  current_messages : List Msg
  apiConfigured : Bool
deriving DecidableEq, Repr

/-- `MainController.create_new_conversation` (success path):
`db.create_conversation`, make it current, clear the transcript.  (The
claims under study exercise the message-insert failure, not the
conversation-insert failure, so conversation creation is modelled as
succeeding.) -/
def MainController.create_new_conversation (s : CtrlState) (title : String) (now : Nat) :
    CtrlState × List Ev :=
  let (db', cid) := s.db.create_conversation title now
  ({ s with db := db', current_conversation_id := some cid, current_messages := [] },
   [.storeCreateConv title])

/-- `MainController.send_message`, line for line:
* no `api_client` → emit an error, return (nothing persisted, nothing
  appended);
* no current conversation → derive a provisional title from the message and
  create the conversation; current conversation but empty transcript →
  derive the title and `update_conversation_title`;
* then, inside the `try`: `db.add_message(conv, 'user', msg, tokens)`
  followed by `current_messages.append(...)`; if the insert raises, the
  `except` emits an error and the append never runs. -/
def MainController.send_message (s : CtrlState) (user_message : String) (now : Nat)
    (insertFails : Bool) : CtrlState × List Ev :=
  if ¬ s.apiConfigured then
    (s, [.errorEmitted "Client API non initialisé. Vérifiez vos paramètres."])
  else
    let (s1, evs1) :=
      match s.current_conversation_id with
      | none =>
          MainController.create_new_conversation s
            (generate_title_from_message user_message AUTO_TITLE_MAX_LENGTH) now
      | some cid =>
          if s.current_messages = [] then
            let title := generate_title_from_message user_message AUTO_TITLE_MAX_LENGTH
            ({ s with db := s.db.update_conversation_title cid title },
             [.storeUpdateTitle cid title])
          else (s, [])
    match s1.current_conversation_id with
    | none => (s1, evs1)
    | some cid =>
        if insertFails then
          (s1, evs1 ++ [.storeInsertFailed cid "user" user_message,
                        .errorEmitted "Erreur lors de l'envoi"])
        else
          let (db2, _) :=
            s1.db.add_message cid "user" user_message (estimate_tokens user_message) now
          ({ s1 with
              db := db2,
              current_messages := s1.current_messages ++ [⟨"user", user_message⟩] },
           evs1 ++ [.storeInsert cid "user" user_message, .memAppend "user" user_message])

/-- `MainController.save_assistant_message`: nothing happens without a
current conversation; otherwise `db.add_message(conv, 'assistant', ...)`
then `current_messages.append(...)`; a raising insert is swallowed by the
`except` (log only) and the append never runs. -/
def MainController.save_assistant_message (s : CtrlState) (content : String) (now : Nat)
    (insertFails : Bool) : CtrlState × List Ev :=
  match s.current_conversation_id with
  | none => (s, [])
  | some cid =>
      if insertFails then
        (s, [.storeInsertFailed cid "assistant" content])
      else
        let (db2, _) :=
          s.db.add_message cid "assistant" content (estimate_tokens content) now
        ({ s with
            db := db2,
            current_messages := s.current_messages ++ [⟨"assistant", content⟩] },
         [.storeInsert cid "assistant" content, .memAppend "assistant" content])

/-- The `MainWindow` state the pipeline claims are about: the controller,
the chat widget, how many worker threads are live (the window keeps a
reference to the last one only; starting a new worker while one is live
leaves the old thread running), whether the input widget accepts a submit,
and the errors surfaced to the user via `_on_error` dialogs. -/
structure MWState where
  ctrl : CtrlState
  chat : ChatState
  liveWorkers : Nat
  inputEnabled : Bool
  errorsSurfaced : List String
deriving DecidableEq, Repr

/-- What `_on_message_submitted` + `_start_api_worker` did with a submit. -/
inductive SubmitOutcome where
  | started
  | notConfigured
deriving DecidableEq, Repr

/-- `MainWindow._on_message_submitted` followed by `_start_api_worker`:
echo the user message into the chat widget, `controller.send_message`
(which surfaces its own errors), disable the input; then
`_start_api_worker` either bails out with an error when no API client is
configured (re-enabling the input) or shows the typing indicator and
starts a fresh `APIWorker`.  There is no check whatsoever on whether a
worker is already live. -/
def MainWindow.on_message_submitted (s : MWState) (message : String) (now : Nat) :
    MWState × SubmitOutcome :=
  let chat1 := ChatWidget.append_message s.chat "user" message
  let (ctrl1, evs) := MainController.send_message s.ctrl message now false
  let errs := evs.filterMap fun e =>
    match e with | .errorEmitted m => some m | _ => none
  if ¬ s.ctrl.apiConfigured then
    ({ s with
        chat := chat1, ctrl := ctrl1, inputEnabled := true,
        errorsSurfaced :=
          s.errorsSurfaced ++ errs ++ ["API Client not initialized. Check your settings."] },
     .notConfigured)
  else
    ({ s with
        chat := ChatWidget.show_typing_indicator chat1, ctrl := ctrl1,
        inputEnabled := false, liveWorkers := s.liveWorkers + 1,
        errorsSurfaced := s.errorsSurfaced ++ errs },
     .started)

/-- `MainWindow._on_response_complete`: hide the typing indicator, persist
the full response via `controller.save_assistant_message`, push the
assistant message to the chat widget, re-enable the input, clean up the
worker.  No error is surfaced on this path. -/
def MainWindow.on_response_complete (s : MWState) (full_response : String) (now : Nat) :
    MWState :=
  let chat1 := ChatWidget.hide_typing_indicator s.chat
  let (ctrl1, _) := MainController.save_assistant_message s.ctrl full_response now false
  let chat2 := ChatWidget.append_message chat1 "assistant" full_response
  { s with
    chat := chat2, ctrl := ctrl1, inputEnabled := true,
    liveWorkers := s.liveWorkers - 1 }

/-- `MainWindow._on_cancel_streaming`: when a worker is live, stop and join
it (`_cleanup_worker`), hide the typing indicator, re-enable the input.
Nothing is persisted and no error is surfaced (informational status only). -/
def MainWindow.on_cancel_streaming (s : MWState) : MWState :=
  if s.liveWorkers ≠ 0 then
    { s with
      liveWorkers := s.liveWorkers - 1,
      chat := ChatWidget.hide_typing_indicator s.chat,
      inputEnabled := true }
  else s

/-- One full streaming turn with no cancellation: submit the user message,
run the worker over the transport's chunk sequence (normal fragments plus,
on a mid-stream transport failure, the error sentinel), then dispatch the
worker's terminal signal. -/
def streamingTurn (s : MWState) (message : String) (fragments : List String)
    (midStreamError : Option String) (now : Nat) : MWState :=
  let (s1, outcome) := MainWindow.on_message_submitted s message now
  match outcome with
  | .notConfigured => s1
  | .started =>
      match APIWorker.run (chat_completion_stream fragments midStreamError) none with
      | .completed full => MainWindow.on_response_complete s1 full now
      | .cancelled => s1

/-- One streaming turn that the user cancels: submit, run the worker with
the stop flag becoming observable at check `stopAt`, then dispatch — a
completed worker reaches `_on_response_complete`, a stopped worker emits
nothing and the user's Escape reaches `_on_cancel_streaming`. -/
def cancelledTurn (s : MWState) (message : String) (fragments : List String)
    (stopAt : Nat) (now : Nat) : MWState :=
  let (s1, outcome) := MainWindow.on_message_submitted s message now
  match outcome with
  | .notConfigured => s1
  | .started =>
      match APIWorker.run (chat_completion_stream fragments none) (some stopAt) with
      | .completed full => MainWindow.on_response_complete s1 full now
      | .cancelled => MainWindow.on_cancel_streaming s1

/-- The timeout argument `MainWindow._cleanup_worker` passes to
`QThread.wait`: the call is `self.api_worker.wait()` — *no* argument, i.e.
the unbounded form (`none`); `WORKER_WAIT_TIMEOUT_MS` is never passed. -/
def cleanup_wait_timeout_ms : Option Nat := none

/-- How long (ms) a `QThread.wait` call blocks the calling thread: a worker
that unwinds after `duration` ms returns then; with a timeout the wait
returns after at most that bound; `none` results mean the call never
returns. -/
def joinBlockMs (duration timeout : Option Nat) : Option Nat :=
  match duration, timeout with
  | some d, some t => some (min d t)
  | some d, none => some d
  | none, some t => some t
  | none, none => none

/-!
## Reference semantics for the transcript list objects

Python lists are mutable heap objects; `self.current_messages = messages`
makes two names share one object, while `[msg.copy() for msg in ...]`
builds a fresh object.  To state the snapshot-isolation claim (which is
*about* this sharing) the transcript is modelled with an explicit heap:
a reference is a `Nat`, the heap maps references to message-list values,
and each Python expression that builds a new list allocates. -/

/-- Heap of Python list objects holding `Msg` lists. -/
structure ListHeap where
  mem : Nat → List Msg
  next : Nat

/-- Allocate a fresh list object. -/
def ListHeap.alloc (h : ListHeap) (v : List Msg) : Nat × ListHeap :=
  (h.next, ⟨fun r => if r = h.next then v else h.mem r, h.next + 1⟩)

/-- Dereference. -/
def ListHeap.get (h : ListHeap) (r : Nat) : List Msg := h.mem r

/-- In-place mutation of the object behind `r` (Python `list.append` etc.). -/
def ListHeap.set (h : ListHeap) (r : Nat) (v : List Msg) : ListHeap :=
  ⟨fun x => if x = r then v else h.mem x, h.next⟩

/-- `ConversationManager`'s transcript-relevant state: the current
conversation id and the *reference* to its `current_messages` list object. -/
structure ConvMgrRef where
  current_conversation_id : Option Nat
  current_messages : Nat

/-- `ConversationManager.load_conversation`:
`messages = self.db_manager.get_messages(cid)` builds one fresh list
object; `self.current_messages = messages` installs *that same object*;
`return messages` hands the very same object to the caller.  Returns the
new manager state, the heap, and the reference returned to the caller. -/
def ConvMgrRef.load_conversation (_m : ConvMgrRef) (h : ListHeap) (db : DB) (cid : Nat) :
    ConvMgrRef × ListHeap × Nat :=
  let msgs := (db.get_messages cid).map fun r => (⟨r.role, r.content⟩ : Msg)
  let (ref, h') := h.alloc msgs
  ({ current_conversation_id := some cid, current_messages := ref }, h', ref)

/-- `ConversationManager.save_user_message`: without a current conversation
return `None`; otherwise `db.add_message(conv, 'user', ...)` then
`self.current_messages.append({'role': 'user', 'content': content})` —
an in-place mutation of the shared list object. -/
def ConvMgrRef.save_user_message (m : ConvMgrRef) (h : ListHeap) (db : DB)
    (content : String) (tokens now : Nat) : ConvMgrRef × ListHeap × DB × Option Nat :=
  match m.current_conversation_id with
  | none => (m, h, db, none)
  | some cid =>
      let (db', mid) := db.add_message cid "user" content tokens now
      (m, h.set m.current_messages (h.get m.current_messages ++ [⟨"user", content⟩]),
       db', some mid)

/-- `ConversationManager.save_assistant_message`: same shape with role
`'assistant'`. -/
def ConvMgrRef.save_assistant_message (m : ConvMgrRef) (h : ListHeap) (db : DB)
    (content : String) (tokens now : Nat) : ConvMgrRef × ListHeap × DB × Option Nat :=
  match m.current_conversation_id with
  | none => (m, h, db, none)
  | some cid =>
      let (db', mid) := db.add_message cid "assistant" content tokens now
      (m, h.set m.current_messages (h.get m.current_messages ++ [⟨"assistant", content⟩]),
       db', some mid)

/-- `MainController`'s transcript reference (heap view of the same class as
`CtrlState`, for the snapshot-isolation claim only). -/
structure MainCtrlRef where
  current_conversation_id : Option Nat
  current_messages : Nat

/-- `MainController.load_conversation` (success path):
`conv_data = db.get_conversation_with_messages(cid)` builds a fresh
`conv_data['messages']` list object, then
`self.current_messages = [msg.copy() for msg in conv_data['messages']]`
builds a *second*, distinct object (per-message copies in a fresh list),
and `conversation_loaded.emit(conv_data)` hands the first object to the
UI.  Returns the controller, the heap, and the emitted reference. -/
def MainCtrlRef.load_conversation (c : MainCtrlRef) (h : ListHeap) (db : DB) (cid : Nat) :
    MainCtrlRef × ListHeap × Option Nat :=
  match db.get_conversation_with_messages cid with
  | none => (c, h, none)
  | some (_, msgs) =>
      let (convRef, h1) := h.alloc msgs
      let (copyRef, h2) := h1.alloc (h1.get convRef)
      ({ current_conversation_id := some cid, current_messages := copyRef }, h2,
       some convRef)

/-- The transcript mutation performed by `MainController.send_message` after
a successful insert: `self.current_messages.append({'role': 'user',
'content': user_message})` — in-place mutation of the live transcript
object. -/
def MainCtrlRef.append_user_in_place (c : MainCtrlRef) (h : ListHeap) (content : String) :
    ListHeap :=
  h.set c.current_messages (h.get c.current_messages ++ [⟨"user", content⟩])

/-!
## Helper lemmas
-/

theorem insertByTs_of_all_le (r : MsgRow) (acc : List MsgRow)
    (h : ∀ x ∈ acc, x.timestamp ≤ r.timestamp) : insertByTs r acc = acc ++ [r] := by
  induction acc with
  | nil => rfl
  | cons x xs ih =>
      have hx : x.timestamp ≤ r.timestamp := h x (by simp)
      simp only [insertByTs, if_pos hx, List.cons_append]
      rw [ih fun y hy => h y (by simp [hy])]

theorem foldl_insertByTs_sorted (l acc : List MsgRow)
    (h : (acc ++ l).Pairwise fun a b => a.timestamp ≤ b.timestamp) :
    l.foldl (fun a r => insertByTs r a) acc = acc ++ l := by
  induction l generalizing acc with
  | nil => simp
  | cons r rs ih =>
      have hle : ∀ x ∈ acc, x.timestamp ≤ r.timestamp := by
        have := (List.pairwise_append.mp h).2.2
        intro x hx
        exact this x hx r (by simp)
      have hrec : ((acc ++ [r]) ++ rs).Pairwise fun a b => a.timestamp ≤ b.timestamp := by
        simpa [List.append_assoc] using h
      simp only [List.foldl_cons, insertByTs_of_all_le r acc hle]
      rw [ih (acc ++ [r]) hrec]
      simp

theorem sortByTs_eq_self (l : List MsgRow)
    (h : l.Pairwise fun a b => a.timestamp ≤ b.timestamp) : sortByTs l = l := by
  simpa using foldl_insertByTs_sorted l [] (by simpa using h)

/-!
## Claims
-/

/-- **C4.** Persist-then-mirror: for `MainController.send_message` (user
append) and `MainController.save_assistant_message` (assistant append),
the successful event trace ends `... storeInsert, memAppend` — the durable
insert strictly precedes the in-memory transcript append — and when the
insert raises, the in-memory transcript and the persisted message table are
left unchanged and no `memAppend` event occurs at all: the store stays
authoritative, the memory view at most stale. -/
theorem c4_persist_then_mirror (s : CtrlState) (cid : Nat) (umsg amsg : String) (now : Nat)
    (hconf : s.apiConfigured = true) (hconv : s.current_conversation_id = some cid) :
    (∃ pre, (MainController.send_message s umsg now false).2 =
        pre ++ [.storeInsert cid "user" umsg, .memAppend "user" umsg]) ∧
    ((MainController.send_message s umsg now true).1.current_messages = s.current_messages ∧
     (MainController.send_message s umsg now true).1.db.msgs = s.db.msgs ∧
     ∀ r c, Ev.memAppend r c ∉ (MainController.send_message s umsg now true).2) ∧
    ((MainController.save_assistant_message s amsg now false).2 =
        [.storeInsert cid "assistant" amsg, .memAppend "assistant" amsg]) ∧
    ((MainController.save_assistant_message s amsg now true).1 = s ∧
     ∀ r c, Ev.memAppend r c ∉ (MainController.save_assistant_message s amsg now true).2) := by
  by_cases hempty : s.current_messages = []
  · simp [MainController.send_message, MainController.save_assistant_message, hconf,
      hconv, hempty]
    exact ⟨⟨[Ev.storeUpdateTitle cid (generate_title_from_message umsg AUTO_TITLE_MAX_LENGTH)],
      rfl⟩, rfl⟩
  · simp [MainController.send_message, MainController.save_assistant_message, hconf,
      hconv, hempty]

/-- Witness for C4 at a concrete controller state. -/
theorem c4_witness :
    (∃ pre, (MainController.send_message
        ⟨⟨[⟨1, "t", 0⟩], [], 2, 1⟩, some 1, [⟨"user", "old"⟩], true⟩ "Hello" 3 false).2 =
      pre ++ [.storeInsert 1 "user" "Hello", .memAppend "user" "Hello"]) ∧
    ((MainController.send_message
        ⟨⟨[⟨1, "t", 0⟩], [], 2, 1⟩, some 1, [⟨"user", "old"⟩], true⟩ "Hello" 3 true).1.current_messages =
      [⟨"user", "old"⟩] ∧
     (MainController.send_message
        ⟨⟨[⟨1, "t", 0⟩], [], 2, 1⟩, some 1, [⟨"user", "old"⟩], true⟩ "Hello" 3 true).1.db.msgs = [] ∧
     ∀ r c, Ev.memAppend r c ∉ (MainController.send_message
        ⟨⟨[⟨1, "t", 0⟩], [], 2, 1⟩, some 1, [⟨"user", "old"⟩], true⟩ "Hello" 3 true).2) ∧
    ((MainController.save_assistant_message
        ⟨⟨[⟨1, "t", 0⟩], [], 2, 1⟩, some 1, [⟨"user", "old"⟩], true⟩ "Hi" 3 false).2 =
      [.storeInsert 1 "assistant" "Hi", .memAppend "assistant" "Hi"]) ∧
    ((MainController.save_assistant_message
        ⟨⟨[⟨1, "t", 0⟩], [], 2, 1⟩, some 1, [⟨"user", "old"⟩], true⟩ "Hi" 3 true).1 =
      ⟨⟨[⟨1, "t", 0⟩], [], 2, 1⟩, some 1, [⟨"user", "old"⟩], true⟩ ∧
     ∀ r c, Ev.memAppend r c ∉ (MainController.save_assistant_message
        ⟨⟨[⟨1, "t", 0⟩], [], 2, 1⟩, some 1, [⟨"user", "old"⟩], true⟩ "Hi" 3 true).2) :=
  c4_persist_then_mirror ⟨⟨[⟨1, "t", 0⟩], [], 2, 1⟩, some 1, [⟨"user", "old"⟩], true⟩
    1 "Hello" "Hi" 3 rfl rfl

/-- **C1 (counterexample).** When the transport fails mid-stream, the
sequence yields the error sentinel as an ordinary final fragment, the
worker completes normally, and the flow *does* persist an assistant
message — the accumulated fragments with the error marker appended — while
surfacing no error.  Concrete run: fragments `["Hi"]` then failure
`"boom"`: the conversation ends up with the assistant row
`"Hi\n\n[ERREUR] boom"` persisted and `errorsSurfaced` empty, contradicting
"no assistant message is persisted … and the error is surfaced". -/
theorem c1_counterexample :
    ((streamingTurn
        ⟨⟨⟨[⟨1, "t", 0⟩], [], 2, 1⟩, some 1, [], true⟩, ⟨[], false⟩, 0, true, []⟩
        "Hello" ["Hi"] (some "boom") 5).ctrl.db.get_messages 1).map
      (fun r => (r.role, r.content)) =
      [("user", "Hello"), ("assistant", "Hi\n\n[ERREUR] boom")] ∧
    (streamingTurn
        ⟨⟨⟨[⟨1, "t", 0⟩], [], 2, 1⟩, some 1, [], true⟩, ⟨[], false⟩, 0, true, []⟩
        "Hello" ["Hi"] (some "boom") 5).errorsSurfaced = [] := by
  refine ⟨?_, ?_⟩ <;> decide

/-- **C1 (amended).** If the streaming sequence fails mid-stream, the
transport converts the failure into one final sentinel fragment
(`"\n\n[ERREUR] " + error`); the worker then completes normally, so the
turn persists the user message and *one* assistant message whose content is
the accumulated fragments followed by the sentinel, and no error is
surfaced to the caller (`error_occurred` fires only when the chunk
iteration itself raises, which `chat_completion_stream` prevents). -/
theorem c1_mid_stream_failure_persists_sentinel (s : MWState) (cid : Nat)
    (message err : String) (fragments : List String) (now : Nat)
    (hconf : s.ctrl.apiConfigured = true)
    (hconv : s.ctrl.current_conversation_id = some cid) :
    (streamingTurn s message fragments (some err) now).ctrl.db.msgs =
      s.ctrl.db.msgs ++
        [⟨s.ctrl.db.nextMsgId, cid, "user", message, now, estimate_tokens message⟩,
         ⟨s.ctrl.db.nextMsgId + 1, cid, "assistant",
           (fragments ++ [ERROR_SENTINEL err]).foldl (· ++ ·) "", now,
           estimate_tokens ((fragments ++ [ERROR_SENTINEL err]).foldl (· ++ ·) "")⟩] ∧
    (streamingTurn s message fragments (some err) now).errorsSurfaced =
      s.errorsSurfaced := by
  by_cases hempty : s.ctrl.current_messages = [] <;>
    simp [streamingTurn, MainWindow.on_message_submitted, MainWindow.on_response_complete,
      MainController.send_message, MainController.save_assistant_message, APIWorker.run,
      chat_completion_stream, DB.add_message, DB.update_conversation_title,
      hconf, hconv, hempty]

/-- Witness for C1's amended theorem at a concrete state and failure. -/
theorem c1_witness :
    (streamingTurn
        ⟨⟨⟨[⟨1, "t", 0⟩], [], 2, 1⟩, some 1, [⟨"user", "old"⟩], true⟩, ⟨[], false⟩,
          0, true, []⟩ "Hello" ["Hi"] (some "boom") 5).ctrl.db.msgs =
      [] ++ [⟨1, 1, "user", "Hello", 5, estimate_tokens "Hello"⟩,
        ⟨1 + 1, 1, "assistant", (["Hi"] ++ [ERROR_SENTINEL "boom"]).foldl (· ++ ·) "", 5,
          estimate_tokens ((["Hi"] ++ [ERROR_SENTINEL "boom"]).foldl (· ++ ·) "")⟩] ∧
    (streamingTurn
        ⟨⟨⟨[⟨1, "t", 0⟩], [], 2, 1⟩, some 1, [⟨"user", "old"⟩], true⟩, ⟨[], false⟩,
          0, true, []⟩ "Hello" ["Hi"] (some "boom") 5).errorsSurfaced = [] :=
  c1_mid_stream_failure_persists_sentinel
    ⟨⟨⟨[⟨1, "t", 0⟩], [], 2, 1⟩, some 1, [⟨"user", "old"⟩], true⟩, ⟨[], false⟩,
      0, true, []⟩ 1 "Hello" "boom" ["Hi"] 5 rfl rfl

/-- **C3.** Cancelling a stream after at least one fragment was received
and before the sequence is exhausted (the stop flag becomes observable at
check `stopAt`, `1 ≤ stopAt < fragments.length`): (a) no assistant message
is persisted — the store gains exactly the user row; (b) Session State's
transcript is the pre-turn transcript plus the user message, never a
partial assistant message; (c) the input is re-enabled and a subsequent
submit on the same conversation starts normally. -/
theorem c3_cancellation_clean (s : MWState) (cid : Nat) (message msg2 : String)
    (fragments : List String) (stopAt now now2 : Nat)
    (hconf : s.ctrl.apiConfigured = true)
    (hconv : s.ctrl.current_conversation_id = some cid)
    (_hfrag : 1 ≤ stopAt) (hmid : stopAt < fragments.length) :
    (cancelledTurn s message fragments stopAt now).ctrl.db.msgs =
      s.ctrl.db.msgs ++ [⟨s.ctrl.db.nextMsgId, cid, "user", message, now,
        estimate_tokens message⟩] ∧
    (cancelledTurn s message fragments stopAt now).ctrl.current_messages =
      s.ctrl.current_messages ++ [⟨"user", message⟩] ∧
    (cancelledTurn s message fragments stopAt now).inputEnabled = true ∧
    (MainWindow.on_message_submitted (cancelledTurn s message fragments stopAt now)
      msg2 now2).2 = .started := by
  have hnl : ¬(fragments.length < stopAt) := by omega
  by_cases hempty : s.ctrl.current_messages = [] <;>
    simp [cancelledTurn, MainWindow.on_message_submitted, MainWindow.on_cancel_streaming,
      MainController.send_message, APIWorker.run, chat_completion_stream, DB.add_message,
      DB.update_conversation_title, hconf, hconv, hempty, hnl]

/-- Witness for C3 at a concrete state: cancel after the first of three
fragments. -/
theorem c3_witness :
    (cancelledTurn
        ⟨⟨⟨[⟨1, "t", 0⟩], [], 2, 1⟩, some 1, [], true⟩, ⟨[], false⟩, 0, true, []⟩
        "Hello" ["Hi", " there", "!"] 1 5).ctrl.db.msgs =
      [] ++ [⟨1, 1, "user", "Hello", 5, estimate_tokens "Hello"⟩] ∧
    (cancelledTurn
        ⟨⟨⟨[⟨1, "t", 0⟩], [], 2, 1⟩, some 1, [], true⟩, ⟨[], false⟩, 0, true, []⟩
        "Hello" ["Hi", " there", "!"] 1 5).ctrl.current_messages =
      [] ++ [⟨"user", "Hello"⟩] ∧
    (cancelledTurn
        ⟨⟨⟨[⟨1, "t", 0⟩], [], 2, 1⟩, some 1, [], true⟩, ⟨[], false⟩, 0, true, []⟩
        "Hello" ["Hi", " there", "!"] 1 5).inputEnabled = true ∧
    (MainWindow.on_message_submitted
      (cancelledTurn
        ⟨⟨⟨[⟨1, "t", 0⟩], [], 2, 1⟩, some 1, [], true⟩, ⟨[], false⟩, 0, true, []⟩
        "Hello" ["Hi", " there", "!"] 1 5) "next" 9).2 = .started :=
  c3_cancellation_clean
    ⟨⟨⟨[⟨1, "t", 0⟩], [], 2, 1⟩, some 1, [], true⟩, ⟨[], false⟩, 0, true, []⟩
    1 "Hello" "next" ["Hi", " there", "!"] 1 5 9 rfl rfl (by decide) (by decide)

/-- **C2 (counterexample).** There is no `AlreadyStreaming` error anywhere
in the submit path: with a worker already live (mid-stream state below), a
second submit is processed in full — it returns `started`, persists a
second user message and starts a second concurrent worker — rather than
failing.  (Through the UI this cannot happen only because the input widget
is disabled.) -/
theorem c2_counterexample :
    (MainWindow.on_message_submitted
        ⟨⟨⟨[⟨1, "t", 0⟩], [⟨1, 1, "user", "Hello", 3, 1⟩], 2, 2⟩, some 1,
            [⟨"user", "Hello"⟩], true⟩,
          ⟨[⟨"user", "Hello"⟩, ⟨"assistant", TYPING_HTML⟩], false⟩, 1, false, []⟩
        "again" 7).2 = .started ∧
    (MainWindow.on_message_submitted
        ⟨⟨⟨[⟨1, "t", 0⟩], [⟨1, 1, "user", "Hello", 3, 1⟩], 2, 2⟩, some 1,
            [⟨"user", "Hello"⟩], true⟩,
          ⟨[⟨"user", "Hello"⟩, ⟨"assistant", TYPING_HTML⟩], false⟩, 1, false, []⟩
        "again" 7).1.liveWorkers = 2 ∧
    ((MainWindow.on_message_submitted
        ⟨⟨⟨[⟨1, "t", 0⟩], [⟨1, 1, "user", "Hello", 3, 1⟩], 2, 2⟩, some 1,
            [⟨"user", "Hello"⟩], true⟩,
          ⟨[⟨"user", "Hello"⟩, ⟨"assistant", TYPING_HTML⟩], false⟩, 1, false, []⟩
        "again" 7).1.ctrl.db.msgs.map fun r => (r.role, r.content)) =
      [("user", "Hello"), ("user", "again")] := by
  refine ⟨?_, ?_, ?_⟩ <;> decide

/-- **C2 (amended).** Exclusion of a second submit is purely UI-level:
whenever an API client is configured, the submit handler unconditionally
starts a (further) worker — it never rejects and never queues — and leaves
the input widget disabled, which is what prevents a second submit through
the UI until completion, error or cancellation re-enables it; each
completed worker persists exactly one assistant message and re-enables the
input. -/
theorem c2_ui_level_exclusion (s : MWState) (msg full : String) (now : Nat)
    (hconf : s.ctrl.apiConfigured = true) :
    ((MainWindow.on_message_submitted s msg now).2 = .started ∧
     (MainWindow.on_message_submitted s msg now).1.inputEnabled = false ∧
     (MainWindow.on_message_submitted s msg now).1.liveWorkers = s.liveWorkers + 1) ∧
    (∀ cid, s.ctrl.current_conversation_id = some cid →
      (MainWindow.on_response_complete s full now).ctrl.db.msgs.length =
        s.ctrl.db.msgs.length + 1 ∧
      (MainWindow.on_response_complete s full now).inputEnabled = true) := by
  constructor
  · refine ⟨?_, ?_, ?_⟩ <;> simp [MainWindow.on_message_submitted, hconf]
  · intro cid hcid
    refine ⟨?_, ?_⟩ <;>
      simp [MainWindow.on_response_complete, MainController.save_assistant_message,
        hcid, DB.add_message]

/-- Witness for C2's amended theorem at a concrete idle state. -/
theorem c2_witness :
    ((MainWindow.on_message_submitted
        ⟨⟨⟨[⟨1, "t", 0⟩], [], 2, 1⟩, some 1, [], true⟩, ⟨[], false⟩, 0, true, []⟩
        "Hello" 3).2 = .started ∧
     (MainWindow.on_message_submitted
        ⟨⟨⟨[⟨1, "t", 0⟩], [], 2, 1⟩, some 1, [], true⟩, ⟨[], false⟩, 0, true, []⟩
        "Hello" 3).1.inputEnabled = false ∧
     (MainWindow.on_message_submitted
        ⟨⟨⟨[⟨1, "t", 0⟩], [], 2, 1⟩, some 1, [], true⟩, ⟨[], false⟩, 0, true, []⟩
        "Hello" 3).1.liveWorkers = 0 + 1) ∧
    (∀ cid, (⟨⟨⟨[⟨1, "t", 0⟩], [], 2, 1⟩, some 1, [], true⟩, ⟨[], false⟩, 0, true,
        []⟩ : MWState).ctrl.current_conversation_id = some cid →
      (MainWindow.on_response_complete
        ⟨⟨⟨[⟨1, "t", 0⟩], [], 2, 1⟩, some 1, [], true⟩, ⟨[], false⟩, 0, true, []⟩
        "Hi" 3).ctrl.db.msgs.length = List.length ([] : List MsgRow) + 1 ∧
      (MainWindow.on_response_complete
        ⟨⟨⟨[⟨1, "t", 0⟩], [], 2, 1⟩, some 1, [], true⟩, ⟨[], false⟩, 0, true, []⟩
        "Hi" 3).inputEnabled = true) :=
  c2_ui_level_exclusion
    ⟨⟨⟨[⟨1, "t", 0⟩], [], 2, 1⟩, some 1, [], true⟩, ⟨[], false⟩, 0, true, []⟩
    "Hello" "Hi" 3 rfl

/-- **C5.** For every conversation, `get_messages` returns exactly the rows
inserted via `add_message` for that conversation in insertion order:
`add_message` appends at the end of the table, and provided the wall-clock
timestamps are non-decreasing in insertion order (which
`datetime.now().isoformat()` gives on a non-retreating clock),
`ORDER BY timestamp ASC` reproduces the insertion order — so persisted
order equals submission order, and in particular the assistant row of an
exchange, inserted after the user row, never precedes it. -/
theorem c5_persisted_order (db : DB) (cid : Nat)
    (h : db.msgs.Pairwise fun a b => a.timestamp ≤ b.timestamp) :
    db.get_messages cid = db.msgs.filter (fun r => r.conversation_id == cid) ∧
    ∀ role content tok now,
      (db.add_message cid role content tok now).1.msgs =
        db.msgs ++ [⟨db.nextMsgId, cid, role, content, now, tok⟩] := by
  constructor
  · unfold DB.get_messages
    exact sortByTs_eq_self _ (h.sublist (List.filter_sublist _))
  · intro role content tok now
    rfl

/-- Witness for C5 at a concrete store: a conversation holding a user row
and an assistant row with equal timestamps comes back in insertion order. -/
theorem c5_witness :
    (DB.get_messages ⟨[⟨1, "t", 0⟩],
        [⟨1, 1, "user", "Hello", 5, 1⟩, ⟨2, 1, "assistant", "Hi", 5, 1⟩], 2, 3⟩ 1 =
      [⟨1, 1, "user", "Hello", 5, 1⟩, ⟨2, 1, "assistant", "Hi", 5, 1⟩]) ∧
    (DB.add_message ⟨[⟨1, "t", 0⟩],
        [⟨1, 1, "user", "Hello", 5, 1⟩, ⟨2, 1, "assistant", "Hi", 5, 1⟩], 2, 3⟩
        1 "user" "again" 1 6).1.msgs =
      [⟨1, 1, "user", "Hello", 5, 1⟩, ⟨2, 1, "assistant", "Hi", 5, 1⟩,
       ⟨3, 1, "user", "again", 6, 1⟩] := by
  have h := c5_persisted_order
    ⟨[⟨1, "t", 0⟩], [⟨1, 1, "user", "Hello", 5, 1⟩, ⟨2, 1, "assistant", "Hi", 5, 1⟩], 2, 3⟩
    1 (by decide)
  exact ⟨by rw [h.1]; decide, h.2 "user" "again" 1 6⟩

/-- **C7.** The claim says cancellation/shutdown joins the worker with a
fixed 10-second bound and abandons it past the bound.  `core/constants.py`
indeed declares `WORKER_WAIT_TIMEOUT_MS = 10000` («10 secondes pour
attendre la fin du worker»), but `MainWindow._cleanup_worker` calls
`self.api_worker.wait()` with *no* argument — the unbounded form — so a
worker that never unwinds (e.g. blocked forever in a network read, never
reaching the stop-flag check) blocks the control thread indefinitely,
while the declared constant would have bounded the join at 10000 ms. -/
theorem c7_unbounded_join :
    joinBlockMs none cleanup_wait_timeout_ms = none ∧
    cleanup_wait_timeout_ms ≠ some WORKER_WAIT_TIMEOUT_MS ∧
    joinBlockMs none (some WORKER_WAIT_TIMEOUT_MS) = some 10000 := by
  refine ⟨rfl, ?_, rfl⟩
  simp [cleanup_wait_timeout_ms]

/-- **C8 (counterexample).** The claim expects the provisional title
`"Explain quicksort in det..."` (24 characters plus ellipsis) for the
message `"Explain quicksort in detail please"` at max length 25; the code
(`title[:max_length] + "..."`) keeps 25 characters, so the derived title
differs from the claimed one. -/
theorem c8_counterexample :
    generate_title_from_message "Explain quicksort in detail please" 25 ≠
      "Explain quicksort in det..." := by decide

/-- **C8 (amended).** Provisional title derivation truncates the stripped
message to the first `max_length` characters and appends an ellipsis: at
max length 25 the message `"Explain quicksort in detail please"` yields
`"Explain quicksort in deta..."` (25 characters plus ellipsis), computed
synchronously by a pure function with no network involvement.  (The
default `AUTO_TITLE_MAX_LENGTH` in the code is 50.) -/
theorem c8_title_truncation :
    generate_title_from_message "Explain quicksort in detail please" 25 =
      "Explain quicksort in deta..." ∧ AUTO_TITLE_MAX_LENGTH = 50 := by
  exact ⟨by decide, rfl⟩

/-- **C10.** With no current conversation (`current_conversation_id` is
`None`), `ConversationManager.save_user_message` and
`save_assistant_message` return `None` and `MainController.
save_assistant_message` does nothing: for every content string, the heap
(in-memory transcript), the store and the manager state come back exactly
as they were, and no event is produced. -/
theorem c10_no_current_conversation (m : ConvMgrRef) (h : ListHeap) (db : DB)
    (s : CtrlState) (c₁ c₂ c₃ : String) (tokens now : Nat) (insertFails : Bool)
    (hm : m.current_conversation_id = none) (hs : s.current_conversation_id = none) :
    ConvMgrRef.save_user_message m h db c₁ tokens now = (m, h, db, none) ∧
    ConvMgrRef.save_assistant_message m h db c₂ tokens now = (m, h, db, none) ∧
    MainController.save_assistant_message s c₃ now insertFails = (s, []) := by
  refine ⟨?_, ?_, ?_⟩ <;>
    simp [ConvMgrRef.save_user_message, ConvMgrRef.save_assistant_message,
      MainController.save_assistant_message, hm, hs]

/-- Witness for C10 at a concrete manager/controller with no current
conversation. -/
theorem c10_witness :
    ConvMgrRef.save_user_message ⟨none, 0⟩ ⟨fun _ => [], 0⟩ ⟨[], [], 1, 1⟩ "x" 0 0 =
      (⟨none, 0⟩, ⟨fun _ => [], 0⟩, ⟨[], [], 1, 1⟩, none) ∧
    ConvMgrRef.save_assistant_message ⟨none, 0⟩ ⟨fun _ => [], 0⟩ ⟨[], [], 1, 1⟩ "y" 0 0 =
      (⟨none, 0⟩, ⟨fun _ => [], 0⟩, ⟨[], [], 1, 1⟩, none) ∧
    MainController.save_assistant_message ⟨⟨[], [], 1, 1⟩, none, [], true⟩ "z" 0 false =
      (⟨⟨[], [], 1, 1⟩, none, [], true⟩, []) :=
  c10_no_current_conversation ⟨none, 0⟩ ⟨fun _ => [], 0⟩ ⟨[], [], 1, 1⟩
    ⟨⟨[], [], 1, 1⟩, none, [], true⟩ "x" "y" "z" 0 0 false rfl rfl

/-- **C6 (counterexample).** `ConversationManager.load_conversation` does
*not* install a copy: it installs and returns the same list object, so a
subsequent append mutates the previously captured return value.  Concrete
run: load conversation 1 (one persisted user message `"hello"`), capture
the returned list, then `save_user_message "x"`; dereferencing the
captured return value now yields two messages, not the one captured. -/
theorem c6_counterexample :
    (ConvMgrRef.load_conversation ⟨none, 0⟩ ⟨fun _ => [], 0⟩
        ⟨[⟨1, "t", 0⟩], [⟨1, 1, "user", "hello", 1, 1⟩], 2, 2⟩ 1).2.1.get
      (ConvMgrRef.load_conversation ⟨none, 0⟩ ⟨fun _ => [], 0⟩
        ⟨[⟨1, "t", 0⟩], [⟨1, 1, "user", "hello", 1, 1⟩], 2, 2⟩ 1).2.2 =
      [⟨"user", "hello"⟩] ∧
    (ConvMgrRef.save_user_message
        (ConvMgrRef.load_conversation ⟨none, 0⟩ ⟨fun _ => [], 0⟩
          ⟨[⟨1, "t", 0⟩], [⟨1, 1, "user", "hello", 1, 1⟩], 2, 2⟩ 1).1
        (ConvMgrRef.load_conversation ⟨none, 0⟩ ⟨fun _ => [], 0⟩
          ⟨[⟨1, "t", 0⟩], [⟨1, 1, "user", "hello", 1, 1⟩], 2, 2⟩ 1).2.1
        ⟨[⟨1, "t", 0⟩], [⟨1, 1, "user", "hello", 1, 1⟩], 2, 2⟩ "x" 0 2).2.1.get
      (ConvMgrRef.load_conversation ⟨none, 0⟩ ⟨fun _ => [], 0⟩
        ⟨[⟨1, "t", 0⟩], [⟨1, 1, "user", "hello", 1, 1⟩], 2, 2⟩ 1).2.2 ≠
      [⟨"user", "hello"⟩] := by
  constructor <;> decide

/-- **C6 (amended).** `MainController.load_conversation` *does* install a
copy (`[msg.copy() for msg in conv_data['messages']]`): the list object it
emits to the UI is distinct from the live transcript object, so for every
conversation, capturing the emitted value and then mutating the live
transcript by a subsequent append leaves the captured value unchanged.
`ConversationManager.load_conversation`, by contrast, shares the reference
(see the counterexample). -/
theorem c6_snapshot_isolation (c : MainCtrlRef) (h : ListHeap) (db : DB) (cid : Nat)
    (content : String) (conv : ConvRow) (msgs : List Msg)
    (hcid : db.get_conversation_with_messages cid = some (conv, msgs)) :
    ∃ a, (MainCtrlRef.load_conversation c h db cid).2.2 = some a ∧
      (MainCtrlRef.load_conversation c h db cid).2.1.get a = msgs ∧
      (MainCtrlRef.append_user_in_place (MainCtrlRef.load_conversation c h db cid).1
          (MainCtrlRef.load_conversation c h db cid).2.1 content).get a = msgs := by
  refine ⟨h.next, ?_, ?_, ?_⟩ <;>
    simp [MainCtrlRef.load_conversation, hcid, MainCtrlRef.append_user_in_place,
      ListHeap.alloc, ListHeap.get, ListHeap.set, Nat.succ_ne_self]

/-- Witness for C6's amended theorem at a concrete store. -/
theorem c6_witness :
    ∃ a, (MainCtrlRef.load_conversation ⟨none, 0⟩ ⟨fun _ => [], 0⟩
        ⟨[⟨1, "t", 0⟩], [⟨1, 1, "user", "hello", 1, 1⟩], 2, 2⟩ 1).2.2 = some a ∧
      (MainCtrlRef.load_conversation ⟨none, 0⟩ ⟨fun _ => [], 0⟩
        ⟨[⟨1, "t", 0⟩], [⟨1, 1, "user", "hello", 1, 1⟩], 2, 2⟩ 1).2.1.get a =
        [⟨"user", "hello"⟩] ∧
      (MainCtrlRef.append_user_in_place
          (MainCtrlRef.load_conversation ⟨none, 0⟩ ⟨fun _ => [], 0⟩
            ⟨[⟨1, "t", 0⟩], [⟨1, 1, "user", "hello", 1, 1⟩], 2, 2⟩ 1).1
          (MainCtrlRef.load_conversation ⟨none, 0⟩ ⟨fun _ => [], 0⟩
            ⟨[⟨1, "t", 0⟩], [⟨1, 1, "user", "hello", 1, 1⟩], 2, 2⟩ 1).2.1 "x").get a =
        [⟨"user", "hello"⟩] :=
  c6_snapshot_isolation ⟨none, 0⟩ ⟨fun _ => [], 0⟩
    ⟨[⟨1, "t", 0⟩], [⟨1, 1, "user", "hello", 1, 1⟩], 2, 2⟩ 1 "x"
    ⟨1, "t", 0⟩ [⟨"user", "hello"⟩] (by decide)

/-- **C9 (counterexample).** The suppression trigger is *not* just
adjacency plus equal role plus equal content: `append_message` explicitly
exempts content containing `'typing-indicator'`, so pushing the identical
`{assistant, "typing-indicator"}` message twice back-to-back yields two
visible entries, not one. -/
theorem c9_counterexample :
    (ChatWidget.append_message
        (ChatWidget.append_message ⟨[], false⟩ "assistant" "typing-indicator")
        "assistant" "typing-indicator").current_messages.length = 2 := by decide

/-- **C9 (amended).** Duplicate suppression: a push identical to the last
visible entry (same role, same content) whose content does not contain the
`'typing-indicator'` marker leaves the visible message list unchanged
(either ignored outright, or — for an assistant push onto a `'⏳'` loading
entry of identical content — replaced in place by itself); a push that
differs from the last entry in role or content (and is not an assistant
push replacing a `'⏳'` loading entry) is appended, so identical messages
that are not adjacent both appear. -/
theorem c9_duplicate_suppression (s : ChatState) (role content : String) :
    (s.current_messages.getLast? = some ⟨role, content⟩ →
      strContains content "typing-indicator" = false →
      (ChatWidget.append_message s role content).current_messages = s.current_messages) ∧
    (∀ lastMsg, s.current_messages.getLast? = some lastMsg →
      ¬(lastMsg.role = role ∧ lastMsg.content = content) →
      ¬(role = "assistant" ∧ lastMsg.role = "assistant" ∧
          strContainsChar lastMsg.content '⏳' = true) →
      (ChatWidget.append_message s role content).current_messages =
        s.current_messages ++ [⟨role, content⟩]) := by
  constructor
  · intro hlast hmark
    have hdrop : s.current_messages.dropLast ++ [(⟨role, content⟩ : Msg)] =
        s.current_messages :=
      List.dropLast_append_getLast? _ hlast
    simp only [ChatWidget.append_message, hlast]
    by_cases h1 : role = "assistant" ∧ strContainsChar content '⏳' = true
    · simp only [h1.1, h1.2, and_self, if_pos]
      rw [← h1.1]
      exact hdrop
    · have h1' : ¬(role = "assistant" ∧ role = "assistant" ∧
          strContainsChar content '⏳' = true) := fun hc => h1 ⟨hc.1, hc.2.2⟩
      rw [if_neg h1', if_pos ⟨trivial, trivial, hmark⟩]
  · intro lastMsg hlast hdup hrep
    have h2 : ¬(lastMsg.role = role ∧ lastMsg.content = content ∧
        strContains content "typing-indicator" = false) := fun hc => hdup ⟨hc.1, hc.2.1⟩
    simp only [ChatWidget.append_message, hlast, if_neg hrep, if_neg h2]

/-- Witness for C9's amended theorem: with `{user, "X"}` last, a repeated
identical push is dropped, while a different push is appended. -/
theorem c9_witness :
    ((ChatWidget.append_message ⟨[⟨"user", "X"⟩], false⟩ "user" "X").current_messages =
      [⟨"user", "X"⟩]) ∧
    ((ChatWidget.append_message ⟨[⟨"user", "X"⟩], false⟩ "assistant" "Y").current_messages =
      [⟨"user", "X"⟩, ⟨"assistant", "Y"⟩]) :=
  ⟨(c9_duplicate_suppression ⟨[⟨"user", "X"⟩], false⟩ "user" "X").1 (by decide) (by decide),
   (c9_duplicate_suppression ⟨[⟨"user", "X"⟩], false⟩ "assistant" "Y").2
     ⟨"user", "X"⟩ (by decide) (by decide) (by decide)⟩
